import Mathlib

/-!
# Shallow embedding of the mission-control retry/persistence core

This file embeds the data model and operations of the mission-control
server (mission lifecycle and retry state machine, validation strategies,
attempt counter, persistent snapshot store) as executable Lean definitions,
and proves properties of the embedded operations.

Modelling conventions:
* JavaScript `Date` values are modelled as natural numbers (milliseconds
  since the epoch); every `new Date()` evaluated during a single tool
  execution is the same instant and is passed in as a `now : Nat` argument.
* JavaScript numbers are modelled as `Rat` (exact arithmetic; no claim in
  scope depends on IEEE-754 rounding, and all numeric comparisons in the
  source are plain comparisons plus a fixed 1e-4 epsilon).
* A JavaScript `Map` is modelled as an insertion-ordered association list;
  `Map.set` replaces in place on an existing key and appends otherwise.
* Thrown exceptions are modelled with `Except`; the `try`/`catch` structure
  of each tool is reproduced by matching on the `Except` value at the same
  point where the source catches.
* The feedback-text generator (`FeedbackEngine`) only produces strings that
  are passed through to the caller; no claim in scope depends on them, so
  the feedback strings are not modelled.
-/

namespace MissionControl

/-- A JavaScript `number | string` union value. -/
inductive NumOrStr where
  | num (q : Rat)
  | str (s : String)
deriving DecidableEq, Repr

/-- Mission lifecycle states (src/types/mission.ts `MissionState`). -/
inductive MissionState where
  | PENDING
  | IN_PROGRESS
  | COMPLETED
  | FAILED
  | ABORTED
deriving DecidableEq, Repr

/-- Numeric comparison operators (src/types/validation.ts `NumericOperator`). -/
inductive NumericOperator where
  | gt
  | lt
  | ge
  | le
  | eq
  | ne
deriving DecidableEq, Repr

/-- The string value of a `NumericOperator` enum member. -/
def NumericOperator.toJs : NumericOperator → String
  | .gt => ">"
  | .lt => "<"
  | .ge => ">="
  | .le => "<="
  | .eq => "=="
  | .ne => "!="

/-- `NumericCriteria` (src/types/validation.ts). -/
structure NumericCriteria where
  operator : NumericOperator
  threshold : Rat
  metricName : Option String := none
deriving DecidableEq, Repr

/-- `ExitCodeCriteria` (src/types/validation.ts). -/
structure ExitCodeCriteria where
  expectedCode : Rat
  command : Option String := none
deriving DecidableEq, Repr

/-- `KeywordCriteria` (src/types/validation.ts). -/
structure KeywordCriteria where
  keyword : String
  mustContain : Bool
  caseSensitive : Option Bool := none
deriving DecidableEq, Repr

/-- The `AnyCriteria` tagged union (src/types/validation.ts). -/
inductive AnyCriteria where
  | numeric (c : NumericCriteria)
  | exitCode (c : ExitCodeCriteria)
  | keyword (c : KeywordCriteria)
deriving DecidableEq, Repr

/-- `ValidationResult` (src/types/validation.ts). -/
structure ValidationResult where
  passed : Bool
  actualValue : Option NumOrStr := none
  expectedValue : Option NumOrStr := none
  message : String
  timestamp : Nat
deriving DecidableEq, Repr

/-- `Attempt` (src/types/mission.ts). -/
structure Attempt where
  attemptNumber : Nat
  timestamp : Nat
  output : String
  value : Option NumOrStr := none
  validationResult : ValidationResult
  duration : Option Rat := none
deriving DecidableEq, Repr

/-- `MissionConfig` (src/types/mission.ts). -/
structure MissionConfig where
  id : String
  goal : String
  criteria : AnyCriteria
  maxAttempts : Option Nat := none
  enableCheckpoints : Option Bool := none
  checkpointFrequency : Option Nat := none
  attemptTimeout : Option Nat := none
deriving DecidableEq, Repr

/-- `Mission` (src/types/mission.ts). -/
structure Mission where
  config : MissionConfig
  state : MissionState
  createdAt : Nat
  updatedAt : Nat
  attempts : List Attempt
  currentAttempt : Nat
  completedAt : Option Nat := none
  success : Option Bool := none
  errorMessage : Option String := none
deriving DecidableEq, Repr

/-! ## AttemptCounter (src/core/AttemptCounter.ts) -/

/-- `AttemptCounterConfig`: `warnThreshold` is optional and defaults to 3. -/
structure AttemptCounterConfig where
  maxAttempts : Nat
  warnThreshold : Option Nat := none
deriving DecidableEq, Repr

/-- The counter state after the constructor has normalised the config. -/
structure AttemptCounter where
  currentAttempt : Nat
  maxAttempts : Nat
  warnThreshold : Nat
deriving DecidableEq, Repr

/-- `getRemainingAttempts`: `Math.max(0, maxAttempts - currentAttempt)`,
which is exactly truncated subtraction on `Nat`. -/
def AttemptCounter.getRemainingAttempts (c : AttemptCounter) : Nat :=
  c.maxAttempts - c.currentAttempt

/-- The message of `MaxAttemptsExceededError('mission', maxAttempts)`
(src/utils/errors.ts). -/
def maxAttemptsExceededMessage (maxAttempts : Nat) : String :=
  s!"Mission mission exceeded maximum attempts ({maxAttempts})"

/-- `AttemptCounter.fromCurrentAttempt(currentAttempt, config)`: validates
`0 <= currentAttempt <= maxAttempts` and sets the counter field directly,
without routing through `increment`. The input is an `Int` because the
source checks `currentAttempt < 0` at runtime. The returned list is the
warnings emitted by this call: the source path contains no `logger.warn`,
so the list is always empty. -/
def AttemptCounter.fromCurrentAttempt (currentAttempt : Int)
    (config : AttemptCounterConfig) :
    Except String (AttemptCounter × List String) :=
  if currentAttempt < 0 then
    .error s!"currentAttempt cannot be negative, got {currentAttempt}"
  else
    let warnThreshold := config.warnThreshold.getD 3
    if currentAttempt > (config.maxAttempts : Int) then
      .error (maxAttemptsExceededMessage config.maxAttempts)
    else
      .ok (⟨currentAttempt.toNat, config.maxAttempts, warnThreshold⟩, [])

/-- The outcome of one `increment()` call: the mutated counter (the state
keeps the overshoot when the call throws), the returned attempt number or
the thrown error, and the warnings emitted by the call. -/
structure IncrementOutcome where
  counter : AttemptCounter
  result : Except String Nat
  warnings : List String
deriving Repr

/-- `AttemptCounter.increment()`: bump the counter, throw
`MaxAttemptsExceededError` past the limit, and emit one near-limit warning
when `0 < remaining <= warnThreshold`. -/
def AttemptCounter.increment (c : AttemptCounter) : IncrementOutcome :=
  let c' : AttemptCounter := { c with currentAttempt := c.currentAttempt + 1 }
  if c'.currentAttempt > c.maxAttempts then
    ⟨c', .error (maxAttemptsExceededMessage c.maxAttempts), []⟩
  else
    let remaining := c'.getRemainingAttempts
    let warnings :=
      if remaining ≤ c.warnThreshold && decide (remaining > 0) then
        [s!"Approaching attempt limit: {remaining} attempts remaining"]
      else []
    ⟨c', .ok c'.currentAttempt, warnings⟩

/-! ## Number extraction (src/validators/NumericValidator.ts) -/

/-- Digit run to a natural number (the semantics of `parseInt(digits, 10)`
for a nonempty run of decimal digits). -/
def digitsToNat (l : List Char) : Nat :=
  l.foldl (fun n c => n * 10 + (c.toNat - '0'.toNat)) 0

/-- Greedy match of `\d+\.?\d*` at the head of the character list (the head
is known to be a digit). Returns the matched characters. -/
def takeNumChars (l : List Char) : List Char :=
  let ds := l.takeWhile Char.isDigit
  match l.drop ds.length with
  | '.' :: rest => ds ++ '.' :: rest.takeWhile Char.isDigit
  | _ => ds

/-- Try to match `-?\d+\.?\d*` starting exactly at the head of the list.
An optional minus must be followed by a digit for the match to succeed. -/
def matchNumAt : List Char → Option (List Char)
  | [] => none
  | c :: rest =>
    if c = '-' then
      match rest with
      | d :: _ => if d.isDigit then some ('-' :: takeNumChars rest) else none
      | [] => none
    else if c.isDigit then some (takeNumChars (c :: rest))
    else none

/-- Leftmost match of `-?\d+\.?\d*`: scan positions left to right. -/
def findNumMatch : List Char → Option (List Char)
  | [] => none
  | c :: rest =>
    match matchNumAt (c :: rest) with
    | some m => some m
    | none => findNumMatch rest

/-- `parseFloat` on a string of shape `-?\d+\.?\d*` (the only shape the
extractor can produce), as an exact rational. -/
def parseFloatChars (l : List Char) : Rat :=
  let (sign, body) : Rat × List Char :=
    match l with
    | '-' :: r => (-1, r)
    | _ => (1, l)
  let intPart := body.takeWhile Char.isDigit
  let fracPart :=
    match body.drop intPart.length with
    | '.' :: r => r.takeWhile Char.isDigit
    | _ => []
  sign * ((digitsToNat intPart : Rat) +
    (digitsToNat fracPart : Rat) / ((10 : Rat) ^ fracPart.length))

/-- `NumericValidator.extractNumber`: first match of the regular expression
`-?\d+\.?\d*` in the output, parsed with `parseFloat`; `null` when there is
no match. -/
def extractNumber (text : String) : Option Rat :=
  (findNumMatch text.data).map parseFloatChars

/-! ## Exit-code extraction (src/validators/ExitCodeValidator.ts) -/

/-- Case-insensitive literal match: `lit` (given lowercase) against the
head of `input`; returns the rest of the input on success. -/
def matchLitCI : List Char → List Char → Option (List Char)
  | [], input => some input
  | _ :: _, [] => none
  | c :: cs, i :: is => if i.toLower = c then matchLitCI cs is else none

/-- Member of the `[:\s]` character class. -/
def isColonOrSpace (c : Char) : Bool := c = ':' || c.isWhitespace

/-- Match `word\s*word2[:\s]+(\d+)` at the head of the input (the shape of
the `exit\s*code` pattern; for the single-word patterns `word2 = []`).
The character classes `[:\s]` and `\d` are disjoint, so greedy scanning is
exactly the regex semantics. Returns the captured digit group's value. -/
def matchCodePatternAt (word word2 : List Char) (input : List Char) : Option Nat :=
  match matchLitCI word input with
  | none => none
  | some r1 =>
    let r2 := if word2.isEmpty then r1 else r1.dropWhile Char.isWhitespace
    match matchLitCI word2 r2 with
    | none => none
    | some r3 =>
      let sep := r3.takeWhile isColonOrSpace
      if sep.isEmpty then none
      else
        let ds := (r3.drop sep.length).takeWhile Char.isDigit
        if ds.isEmpty then none else some (digitsToNat ds)

/-- Leftmost match of a code pattern over the whole input. -/
def scanCodePattern (word word2 : List Char) : List Char → Option Nat
  | [] => none
  | c :: rest =>
    match matchCodePatternAt word word2 (c :: rest) with
    | some n => some n
    | none => scanCodePattern word word2 rest

/-- `ExitCodeValidator.extractExitCode`: try the case-insensitive patterns
`exit\s*code[:\s]+(\d+)`, `returned[:\s]+(\d+)`, `status[:\s]+(\d+)` and
finally `^(\d+)$` (which, without the multiline flag, requires the whole
string to be digits), in that order. -/
def extractExitCode (text : String) : Option Nat :=
  match scanCodePattern "exit".data "code".data text.data with
  | some n => some n
  | none =>
    match scanCodePattern "returned".data [] text.data with
    | some n => some n
    | none =>
      match scanCodePattern "status".data [] text.data with
      | some n => some n
      | none =>
        if !text.data.isEmpty && text.data.all Char.isDigit then
          some (digitsToNat text.data)
        else none

/-! ## Validators (src/validators) -/

/-- `BaseValidator.createResult`. -/
def createResult (passed : Bool) (message : String)
    (actualValue expectedValue : Option NumOrStr) (now : Nat) : ValidationResult :=
  { passed := passed, actualValue := actualValue, expectedValue := expectedValue,
    message := message, timestamp := now }

/-- Rendering of a JS number inside a template string. JavaScript prints
integral numbers without a fractional part; non-integral decimal rendering
is approximated by the rational's own representation, which no claim in
scope depends on. -/
def jsNumToString (q : Rat) : String :=
  if q.den = 1 then toString q.num else toString q

/-- `NumericValidator.compare`: the six operators; equality and inequality
use the 1e-4 epsilon. -/
def numCompare (actual : Rat) (operator : NumericOperator) (threshold : Rat) : Bool :=
  match operator with
  | .gt => actual > threshold
  | .lt => actual < threshold
  | .ge => actual ≥ threshold
  | .le => actual ≤ threshold
  | .eq => |actual - threshold| < 1 / 10000
  | .ne => |actual - threshold| ≥ 1 / 10000

/-- The negated-operator string used in failure messages. -/
def negateOperator : NumericOperator → String
  | .gt => "<="
  | .lt => ">="
  | .ge => "<"
  | .le => ">"
  | .eq => "!="
  | .ne => "=="

/-- `NumericValidator.validate(output, value)`: the explicit `value` is used
only when it is a number (`typeof value === 'number'`); otherwise the first
number is extracted from `output`. -/
def NumericValidator.validate (criteria : NumericCriteria) (output : String)
    (value : Option NumOrStr) (now : Nat) : ValidationResult :=
  let actualValue : Option Rat :=
    match value with
    | some (.num q) => some q
    | _ => extractNumber output
  match actualValue with
  | none =>
    createResult false "Failed to extract numeric value from output"
      none (some (.num criteria.threshold)) now
  | some a =>
    let passed := numCompare a criteria.operator criteria.threshold
    let message :=
      if passed then
        "Validation passed: " ++ jsNumToString a ++ " " ++
          criteria.operator.toJs ++ " " ++ jsNumToString criteria.threshold
      else
        "Validation failed: " ++ jsNumToString a ++ " " ++
          negateOperator criteria.operator ++ " " ++ jsNumToString criteria.threshold
    createResult passed message (some (.num a)) (some (.num criteria.threshold)) now

/-- `ExitCodeValidator.validate(output, value)`: the explicit `value` is
used only when it is a number; otherwise the exit code is parsed from the
output. Pass iff `actualCode === expectedCode` (exact equality). -/
def ExitCodeValidator.validate (criteria : ExitCodeCriteria) (output : String)
    (value : Option NumOrStr) (now : Nat) : ValidationResult :=
  let actualCode : Option Rat :=
    match value with
    | some (.num q) => some q
    | _ => (extractExitCode output).map (fun n => (n : Rat))
  match actualCode with
  | none =>
    createResult false "Failed to extract exit code from output"
      none (some (.num criteria.expectedCode)) now
  | some a =>
    let passed := a == criteria.expectedCode
    let message :=
      if passed then
        "Command succeeded with exit code " ++ jsNumToString a
      else
        "Command failed with exit code " ++ jsNumToString a ++
          " (expected " ++ jsNumToString criteria.expectedCode ++ ")"
    createResult passed message (some (.num a)) (some (.num criteria.expectedCode)) now

/-- `String.prototype.toLowerCase`, approximated by per-character
lowering (the claims in scope use ASCII keywords only). -/
def jsToLower (s : String) : String := String.mk (s.data.map Char.toLower)

/-- Substring scan: does `sub` occur starting at some position of the list? -/
def listIncludes (sub : List Char) : List Char → Bool
  | [] => sub.isEmpty
  | c :: rest => List.isPrefixOf sub (c :: rest) || listIncludes sub rest

/-- `String.prototype.includes`: substring containment (the empty string is
contained in every string). -/
def jsIncludes (s sub : String) : Bool := listIncludes sub.data s.data

/-- `KeywordValidator.validate(output, _value)`: the `value` argument is
declared but never read by the source; the result depends only on `output`
and the criteria. -/
def KeywordValidator.validate (criteria : KeywordCriteria) (output : String)
    (_value : Option NumOrStr) (now : Nat) : ValidationResult :=
  let caseSensitive := criteria.caseSensitive.getD true
  let searchText := if caseSensitive then output else jsToLower output
  let searchKeyword := if caseSensitive then criteria.keyword else jsToLower criteria.keyword
  let contains := jsIncludes searchText searchKeyword
  let passed := if criteria.mustContain then contains else !contains
  let message :=
    if passed then
      if criteria.mustContain then
        "Output contains required keyword: \"" ++ criteria.keyword ++ "\""
      else
        "Output correctly excludes keyword: \"" ++ criteria.keyword ++ "\""
    else
      if criteria.mustContain then
        "Output missing required keyword: \"" ++ criteria.keyword ++ "\""
      else
        "Output unexpectedly contains keyword: \"" ++ criteria.keyword ++ "\""
  createResult passed message
    (some (.str (if contains then "found" else "not found")))
    (some (.str criteria.keyword)) now

/-- `SubmitAttemptTool.getValidator` + the subsequent `validate` call:
dispatch on the criteria tag. -/
def runValidator (criteria : AnyCriteria) (output : String)
    (value : Option NumOrStr) (now : Nat) : ValidationResult :=
  match criteria with
  | .numeric c => NumericValidator.validate c output value now
  | .exitCode c => ExitCodeValidator.validate c output value now
  | .keyword c => KeywordValidator.validate c output value now

/-! ## The in-memory store (src/state/StateManager.ts)

A JavaScript `Map` is an insertion-ordered key/value container: `set` on an
existing key replaces the value in place, otherwise it appends. We model it
as an association list with exactly those operations. -/

/-- `Map.prototype.get`. -/
def mapGet? {α : Type} : List (String × α) → String → Option α
  | [], _ => none
  | (k', v) :: rest, k => if k' = k then some v else mapGet? rest k

/-- `Map.prototype.has`. -/
def mapHas {α : Type} (l : List (String × α)) (k : String) : Bool :=
  (mapGet? l k).isSome

/-- `Map.prototype.set`: replace in place on an existing key, append
otherwise. -/
def mapSet {α : Type} : List (String × α) → String → α → List (String × α)
  | [], k, v => [(k, v)]
  | (k', v') :: rest, k, v =>
    if k' = k then (k, v) :: rest else (k', v') :: mapSet rest k v

/-- A persisted mid-mission snapshot (src/types/state.ts `Checkpoint`).
`metadata` is an opaque JSON blob, carried through serialization verbatim,
modelled as an optional string. -/
structure Checkpoint where
  id : String
  missionId : String
  timestamp : Nat
  missionSnapshot : Mission
  attemptNumber : Nat
  metadata : Option String := none
deriving DecidableEq, Repr

/-- The orchestrator's in-memory authoritative state: the mission and
checkpoint maps plus the dirty flag set by `debouncedSave` (the debounce
timer itself is real-time behaviour outside the model; every mutation marks
the store dirty). -/
structure Store where
  missions : List (String × Mission) := []
  checkpoints : List (String × Checkpoint) := []
  dirty : Bool := false
deriving DecidableEq, Repr

/-- `StateManager.addMission`: throws `MissionExistsError` on a duplicate
id, otherwise inserts and marks dirty. -/
def StateManager.addMission (s : Store) (mission : Mission) :
    Store × Except String Unit :=
  if mapHas s.missions mission.config.id then
    (s, .error s!"Mission already exists: {mission.config.id}")
  else
    ({ s with missions := mapSet s.missions mission.config.id mission,
              dirty := true }, .ok ())

/-- `StateManager.updateMission`: throws `MissionNotFoundError` for an
unknown id, otherwise stamps `updatedAt`, stores the mission and marks
dirty. -/
def StateManager.updateMission (s : Store) (mission : Mission) (now : Nat) :
    Store × Except String Unit :=
  if mapHas s.missions mission.config.id then
    let mission' := { mission with updatedAt := now }
    ({ s with missions := mapSet s.missions mission.config.id mission',
              dirty := true }, .ok ())
  else
    (s, .error s!"Mission not found: {mission.config.id}")

/-! ## The four MCP tools (src/tools) -/

/-- `SubmitAttemptInput`. -/
structure SubmitInput where
  missionId : String
  output : String
  value : Option NumOrStr := none
deriving DecidableEq, Repr

/-- The JSON results `SubmitAttemptTool.execute` can return, keyed by the
fields the claims inspect. `error` is the outer catch-all (it reports
`success:false` with the thrown message and carries no `final` field). -/
inductive SubmitOutcome where
  | error (msg : String)
  | notInProgress (state : MissionState)
  | maxExceeded (attemptsUsed : Nat) (maxAttempts : Option Nat)
  | completedOk (attemptsUsed : Nat) (validationResult : ValidationResult)
  | failedRetry (attemptsRemaining : Nat) (validationResult : ValidationResult)
deriving DecidableEq, Repr

/-- The `final` field of the returned JSON, when present. -/
def SubmitOutcome.finalField : SubmitOutcome → Option Bool
  | .maxExceeded _ _ => some true
  | .completedOk _ _ => some true
  | .failedRetry _ _ => some false
  | _ => none

/-- The `passed` field of the returned JSON, when present. -/
def SubmitOutcome.passedField : SubmitOutcome → Option Bool
  | .maxExceeded _ _ => some false
  | .completedOk _ _ => some true
  | .failedRetry _ _ => some false
  | _ => none

/-- `SubmitAttemptTool.execute`. Mirrors the source step by step:
mission lookup, state precondition, counter restoration (a throw here is
caught by the OUTER catch and mutates nothing), increment with its inner
catch performing the terminal FAILED transition, validation, output
truncation at 1 MiB, attempt append, and the pass/fail transition. -/
def SubmitAttemptTool.execute (s : Store) (input : SubmitInput) (now : Nat) :
    Store × SubmitOutcome :=
  match mapGet? s.missions input.missionId with
  | none => (s, .error s!"Mission not found: {input.missionId}")
  | some mission =>
    if mission.state ≠ .IN_PROGRESS then
      (s, .notInProgress mission.state)
    else
      let maxAttempts := mission.config.maxAttempts.getD 10
      match AttemptCounter.fromCurrentAttempt (mission.currentAttempt : Int)
          { maxAttempts := maxAttempts } with
      | .error e => (s, .error e)
      | .ok (attemptCounter, _) =>
        let inc := attemptCounter.increment
        match inc.result with
        | .error _ =>
          let mission' := { mission with
            state := .FAILED, completedAt := some now,
            success := some false,
            errorMessage := some "Maximum attempts exceeded" }
          ((StateManager.updateMission s mission' now).1,
            .maxExceeded mission.currentAttempt mission.config.maxAttempts)
        | .ok attemptNumber =>
          let validationResult :=
            runValidator mission.config.criteria input.output input.value now
          let storedOutput :=
            if input.output.length > 1024 * 1024 then
              (input.output.take (1024 * 1024)) ++ "\n... (truncated)"
            else input.output
          let attempt : Attempt :=
            { attemptNumber := attemptNumber, timestamp := now,
              output := storedOutput, value := input.value,
              validationResult := validationResult }
          let mission' := { mission with
            attempts := mission.attempts ++ [attempt],
            currentAttempt := attemptNumber, updatedAt := now }
          if validationResult.passed then
            let completedMission := { mission' with
              state := .COMPLETED, completedAt := some now,
              success := some true }
            ((StateManager.updateMission s completedMission now).1,
              .completedOk attemptNumber validationResult)
          else
            ((StateManager.updateMission s mission' now).1,
              .failedRetry inc.counter.getRemainingAttempts validationResult)

/-- `AbortMissionInput`. -/
structure AbortInput where
  missionId : String
  reason : Option String := none
deriving DecidableEq, Repr

/-- The JSON results `AbortMissionTool.execute` can return. -/
inductive AbortOutcome where
  | error (msg : String)
  | rejected (state : MissionState)
  | aborted (attemptsUsed : Nat) (reason : String)
deriving DecidableEq, Repr

/-- `input.reason || 'Manually aborted'`: JavaScript `||` also replaces the
empty string (falsy). -/
def abortReason (reason : Option String) : String :=
  match reason with
  | some r => if r = "" then "Manually aborted" else r
  | none => "Manually aborted"

/-- `AbortMissionTool.execute`. The rejection test covers only the
`COMPLETED` and `FAILED` states. -/
def AbortMissionTool.execute (s : Store) (input : AbortInput) (now : Nat) :
    Store × AbortOutcome :=
  match mapGet? s.missions input.missionId with
  | none => (s, .error s!"Mission not found: {input.missionId}")
  | some mission =>
    if mission.state = .COMPLETED ∨ mission.state = .FAILED then
      (s, .rejected mission.state)
    else
      let errorMessage := abortReason input.reason
      let mission' := { mission with
        state := .ABORTED, completedAt := some now,
        success := some false, errorMessage := some errorMessage }
      ((StateManager.updateMission s mission' now).1,
        .aborted mission'.currentAttempt errorMessage)

/-! ## Mission definition (src/core/MissionDefiner.ts, src/tools/defineMission.ts)

The definition pipeline is modelled at two levels, matching the source:

* the *raw* level models `DefineMissionTool.parseCriteria` and
  `MissionDefiner.validateCriteria` on dynamically-typed field values (the
  TypeScript `as` casts are runtime no-ops, so malformed inputs reach the
  validator unchanged);
* the *typed* level models `MissionDefiner.defineMission` on well-typed
  criteria (its declared input type), which is the configuration every
  stored mission actually carries in the lifecycle model. -/

/-- A JavaScript dynamic value, as found in the `criteria` record of a
`define_mission` request (`Record<string, unknown>`). `undef` is an absent
field. `NaN` cannot occur (the record is parsed from JSON). -/
inductive JSValue where
  | num (q : Rat)
  | str (s : String)
  | boolean (b : Bool)
  | nullv
  | undef
deriving DecidableEq, Repr

/-- JavaScript truthiness of a `JSValue`. -/
def JSValue.truthy : JSValue → Bool
  | .num q => q != 0
  | .str s => s ≠ ""
  | .boolean b => b
  | .nullv => false
  | .undef => false

/-- The nullish-coalescing operator `v ?? d`. -/
def JSValue.coalesce (v d : JSValue) : JSValue :=
  match v with
  | .nullv => d
  | .undef => d
  | _ => v

/-- `typeof v === 'number'`. -/
def JSValue.isNum : JSValue → Bool
  | .num _ => true
  | _ => false

/-- `typeof v === 'string'`. -/
def JSValue.isStr : JSValue → Bool
  | .str _ => true
  | _ => false

/-- `typeof v === 'boolean'`. -/
def JSValue.isBool : JSValue → Bool
  | .boolean _ => true
  | _ => false

/-- `v.length === 0` for a string value (`false` on non-strings, which the
source only evaluates after the string check). -/
def JSValue.strEmpty : JSValue → Bool
  | .str s => s = ""
  | _ => false

/-- The fields of a `define_mission` request's `criteria` record that the
tool reads; an absent field is `undef`. -/
structure CriteriaData where
  operator : JSValue := .undef
  threshold : JSValue := .undef
  metricName : JSValue := .undef
  expectedCode : JSValue := .undef
  command : JSValue := .undef
  keyword : JSValue := .undef
  mustContain : JSValue := .undef
  caseSensitive : JSValue := .undef
deriving DecidableEq, Repr

/-- Criteria as assembled by `DefineMissionTool.parseCriteria`: the tag is
fixed but the field values are whatever the request carried (the `as` casts
do not convert anything at runtime). -/
inductive RawCriteria where
  | numeric (operator threshold metricName : JSValue)
  | exitCode (expectedCode command : JSValue)
  | keyword (keyword mustContain caseSensitive : JSValue)
deriving DecidableEq, Repr

/-- `DefineMissionTool.parseCriteria(strategy, criteriaData)`: builds the
tagged criteria, defaulting `expectedCode` to `0` and `mustContain` and
`caseSensitive` to `true` via `??`; throws on an unknown strategy string. -/
def parseCriteria (strategy : String) (d : CriteriaData) :
    Except String RawCriteria :=
  if strategy = "NUMERIC" then
    .ok (.numeric d.operator d.threshold d.metricName)
  else if strategy = "EXIT_CODE" then
    .ok (.exitCode (d.expectedCode.coalesce (.num 0)) d.command)
  else if strategy = "KEYWORD" then
    .ok (.keyword d.keyword (d.mustContain.coalesce (.boolean true))
      (d.caseSensitive.coalesce (.boolean true)))
  else
    .error s!"Unknown strategy: {strategy}"

/-- `MissionDefiner.validateCriteria` on the runtime (dynamically typed)
criteria value. The leading `!criteria.strategy` check cannot fire on the
output of `parseCriteria` (the tag strings are nonempty), and the switch
default is unreachable for a tagged value, so both are elided. The message
prefix is `InvalidCriteriaError`'s (src/utils/errors.ts). -/
def validateCriteria : RawCriteria → Except String Unit
  | .numeric operator threshold _ =>
    if !threshold.isNum then
      .error "Invalid validation criteria: NUMERIC strategy requires threshold (number)"
    else if !operator.truthy then
      .error "Invalid validation criteria: NUMERIC strategy requires operator"
    else .ok ()
  | .exitCode expectedCode _ =>
    if !expectedCode.isNum then
      .error "Invalid validation criteria: EXIT_CODE strategy requires expectedCode (number)"
    else .ok ()
  | .keyword keyword mustContain _ =>
    if !keyword.isStr || keyword.strEmpty then
      .error "Invalid validation criteria: KEYWORD strategy requires non-empty keyword (string)"
    else if !mustContain.isBool then
      .error "Invalid validation criteria: KEYWORD strategy requires mustContain (boolean)"
    else .ok ()

/-- A mission as created by the definition pipeline at the raw level: the
same record as `Mission` but carrying the runtime criteria value. -/
structure RawMission where
  id : String
  goal : String
  criteria : RawCriteria
  maxAttempts : Nat
  state : MissionState
  createdAt : Nat
  updatedAt : Nat
  attempts : List Attempt
  currentAttempt : Nat
deriving DecidableEq, Repr

/-- `DefineMissionTool.execute` at the raw level: parse the criteria,
validate them (`MissionDefiner.defineMission` validates before building the
mission), set the state to `IN_PROGRESS` and add the mission to the store.
Any throw is caught and returned as an error, leaving the store unchanged.
The fresh UUID is passed in as `id`. -/
def DefineMissionTool.execute (store : List (String × RawMission))
    (id goal strategy : String) (d : CriteriaData) (maxAttempts : Option Nat)
    (now : Nat) : List (String × RawMission) × Except String String :=
  match parseCriteria strategy d with
  | .error e => (store, .error e)
  | .ok criteria =>
    match validateCriteria criteria with
    | .error e => (store, .error e)
    | .ok _ =>
      let mission : RawMission :=
        { id := id, goal := goal, criteria := criteria,
          maxAttempts := maxAttempts.getD 10, state := .PENDING,
          createdAt := now, updatedAt := now, attempts := [],
          currentAttempt := 0 }
      let mission := { mission with state := .IN_PROGRESS }
      if mapHas store id then
        (store, .error s!"Mission already exists: {id}")
      else
        (mapSet store id mission, .ok id)

/-- `DefineMissionParams` (src/core/MissionDefiner.ts), the typed input of
`MissionDefiner.defineMission`. -/
structure DefineMissionParams where
  goal : String
  criteria : AnyCriteria
  maxAttempts : Option Nat := none
  enableCheckpoints : Option Bool := none
  checkpointFrequency : Option Nat := none
  attemptTimeout : Option Nat := none
deriving DecidableEq, Repr

/-- `MissionDefiner.validateCriteria` restricted to well-typed criteria:
a typed numeric threshold is always a number and a typed operator (a
nonempty enum string) is always truthy, so only the empty-keyword check can
still fire. -/
def validateCriteriaTyped : AnyCriteria → Except String Unit
  | .numeric _ => .ok ()
  | .exitCode _ => .ok ()
  | .keyword c =>
    if c.keyword = "" then
      .error "Invalid validation criteria: KEYWORD strategy requires non-empty keyword (string)"
    else .ok ()

/-- `MissionDefiner.defineMission(params)` with the fresh UUID passed in as
`id`: validate, then build the `PENDING` mission with zero attempts. -/
def MissionDefiner.defineMission (id : String) (params : DefineMissionParams)
    (now : Nat) : Except String Mission :=
  (validateCriteriaTyped params.criteria).map fun _ =>
    { config :=
        { id := id, goal := params.goal, criteria := params.criteria,
          maxAttempts := some (params.maxAttempts.getD 10),
          enableCheckpoints := some (params.enableCheckpoints.getD false),
          checkpointFrequency := some (params.checkpointFrequency.getD 5),
          attemptTimeout := params.attemptTimeout },
      state := .PENDING, createdAt := now, updatedAt := now,
      attempts := [], currentAttempt := 0 }

/-- `DefineMissionTool.execute` at the typed level (criteria already
parsed): define, activate to `IN_PROGRESS` and add to the store; a throw
from either step is caught, leaving the store unchanged. -/
def DefineMissionTool.executeTyped (s : Store) (id : String)
    (params : DefineMissionParams) (now : Nat) : Store × Except String String :=
  match MissionDefiner.defineMission id params now with
  | .error e => (s, .error e)
  | .ok mission =>
    let mission := { mission with state := .IN_PROGRESS }
    match StateManager.addMission s mission with
    | (s', .ok _) => (s', .ok id)
    | (s', .error e) => (s', .error e)

/-! ## Operation sequences over the store -/

/-- One externally visible operation on the store. -/
inductive Op where
  | defineOp (id : String) (params : DefineMissionParams) (now : Nat)
  | submitOp (input : SubmitInput) (now : Nat)
  | abortOp (input : AbortInput) (now : Nat)
deriving Repr

/-- Apply one operation to the store (discarding the response). -/
def applyOp (s : Store) : Op → Store
  | .defineOp id params now => (DefineMissionTool.executeTyped s id params now).1
  | .submitOp input now => (SubmitAttemptTool.execute s input now).1
  | .abortOp input now => (AbortMissionTool.execute s input now).1

/-- Run a sequence of operations. -/
def runOps (ops : List Op) (s : Store) : Store :=
  ops.foldl applyOp s

/-- The empty store a fresh `StateManager` starts from. -/
def emptyStore : Store := {}

/-! ## Serialization (src/state/StateManager.ts, src/types/state.ts)

All `Date` fields are serialized with `toISOString()` and reconstructed
with `new Date(string)`. A JavaScript `Date` has millisecond precision and
`new Date(d.toISOString())` yields a `Date` equal to `d`, so the ISO string
is modelled as a marker structure carrying exactly the millisecond value:
the codec is a tagged copy in each direction. -/

/-- An ISO-8601 timestamp string, identified by the millisecond instant it
denotes. -/
structure IsoString where
  millis : Nat
deriving DecidableEq, Repr

/-- `Date.prototype.toISOString`. -/
def toISOString (t : Nat) : IsoString := ⟨t⟩

/-- `new Date(isoString)` (valid-date case). -/
def dateOf (s : IsoString) : Nat := s.millis

/-- `SerializedAttempt` (src/types/state.ts): the nested validation result
is rebuilt field by field with its timestamp as an ISO string. -/
structure SerializedValidationResult where
  passed : Bool
  message : String
  actualValue : Option NumOrStr := none
  expectedValue : Option NumOrStr := none
  timestamp : IsoString
deriving DecidableEq, Repr

structure SerializedAttempt where
  attemptNumber : Nat
  timestamp : IsoString
  output : String
  value : Option NumOrStr := none
  validationResult : SerializedValidationResult
  duration : Option Rat := none
deriving DecidableEq, Repr

/-- `SerializedMission` (src/types/state.ts). -/
structure SerializedMission where
  config : MissionConfig
  state : MissionState
  createdAt : IsoString
  updatedAt : IsoString
  attempts : List SerializedAttempt
  currentAttempt : Nat
  completedAt : Option IsoString := none
  success : Option Bool := none
  errorMessage : Option String := none
deriving DecidableEq, Repr

/-- `SerializedCheckpoint` (src/types/state.ts). -/
structure SerializedCheckpoint where
  id : String
  missionId : String
  timestamp : IsoString
  missionSnapshot : SerializedMission
  attemptNumber : Nat
  metadata : Option String := none
deriving DecidableEq, Repr

/-- `SerializedState` (src/types/state.ts): version tag, snapshot
timestamp, and the two maps flattened to ordered lists of pairs. -/
structure SerializedState where
  version : String
  timestamp : IsoString
  missions : List (String × SerializedMission)
  checkpoints : List (String × SerializedCheckpoint)
deriving DecidableEq, Repr

/-- `StateManager.serializeAttempt`. -/
def serializeAttempt (a : Attempt) : SerializedAttempt :=
  { attemptNumber := a.attemptNumber,
    timestamp := toISOString a.timestamp,
    output := a.output,
    value := a.value,
    validationResult :=
      { passed := a.validationResult.passed,
        message := a.validationResult.message,
        actualValue := a.validationResult.actualValue,
        expectedValue := a.validationResult.expectedValue,
        timestamp := toISOString a.validationResult.timestamp },
    duration := a.duration }

/-- `StateManager.serializeMission`. -/
def serializeMission (m : Mission) : SerializedMission :=
  { config := m.config,
    state := m.state,
    createdAt := toISOString m.createdAt,
    updatedAt := toISOString m.updatedAt,
    attempts := m.attempts.map serializeAttempt,
    currentAttempt := m.currentAttempt,
    completedAt := m.completedAt.map toISOString,
    success := m.success,
    errorMessage := m.errorMessage }

/-- `StateManager.serializeCheckpoint`. -/
def serializeCheckpoint (c : Checkpoint) : SerializedCheckpoint :=
  { id := c.id, missionId := c.missionId,
    timestamp := toISOString c.timestamp,
    missionSnapshot := serializeMission c.missionSnapshot,
    attemptNumber := c.attemptNumber, metadata := c.metadata }

/-- `StateManager.serializeState`: version `'1.0.0'`, the serialization
instant, and the two maps flattened to entry lists in iteration order. -/
def StateManager.serializeState (s : Store) (now : Nat) : SerializedState :=
  { version := "1.0.0",
    timestamp := toISOString now,
    missions := s.missions.map (fun p => (p.1, serializeMission p.2)),
    checkpoints := s.checkpoints.map (fun p => (p.1, serializeCheckpoint p.2)) }

/-- `StateManager.deserializeAttempt`. -/
def deserializeAttempt (a : SerializedAttempt) : Attempt :=
  { attemptNumber := a.attemptNumber,
    timestamp := dateOf a.timestamp,
    output := a.output,
    value := a.value,
    validationResult :=
      { passed := a.validationResult.passed,
        message := a.validationResult.message,
        actualValue := a.validationResult.actualValue,
        expectedValue := a.validationResult.expectedValue,
        timestamp := dateOf a.validationResult.timestamp },
    duration := a.duration }

/-- `StateManager.deserializeMission`. -/
def deserializeMission (m : SerializedMission) : Mission :=
  { config := m.config,
    state := m.state,
    createdAt := dateOf m.createdAt,
    updatedAt := dateOf m.updatedAt,
    attempts := m.attempts.map deserializeAttempt,
    currentAttempt := m.currentAttempt,
    completedAt := m.completedAt.map dateOf,
    success := m.success,
    errorMessage := m.errorMessage }

/-- `StateManager.deserializeCheckpoint`. -/
def deserializeCheckpoint (c : SerializedCheckpoint) : Checkpoint :=
  { id := c.id, missionId := c.missionId,
    timestamp := dateOf c.timestamp,
    missionSnapshot := deserializeMission c.missionSnapshot,
    attemptNumber := c.attemptNumber, metadata := c.metadata }

/-- `StateManager.deserializeState`: clear both maps, then `Map.set` each
deserialized entry in order; the dirty flag is reset. -/
def StateManager.deserializeState (ser : SerializedState) : Store :=
  { missions :=
      ser.missions.foldl (fun acc p => mapSet acc p.1 (deserializeMission p.2)) [],
    checkpoints :=
      ser.checkpoints.foldl
        (fun acc p => mapSet acc p.1 (deserializeCheckpoint p.2)) [],
    dirty := false }

/-! ## The snapshot files on disk (src/state/StateManager.ts `saveState`)

The state directory holds up to three files: the canonical snapshot
(`state.json`), the backup (`state.json.bak`) and the temporary write
target (`state.json.tmp`). `JSON.stringify` of the serialized state is
injective on distinct serialized states, so a file's content is modelled as
the `SerializedState` value it holds. -/

structure SnapshotFS where
  canonical : Option SerializedState := none
  backup : Option SerializedState := none
  temp : Option SerializedState := none
deriving DecidableEq, Repr

/-- One successful `StateManager.saveState` run, exactly in source order:
serialize the current in-memory state, write it to the temp file, copy the
canonical file to the backup path when a canonical file exists, and
atomically rename the temp file over the canonical path. -/
def StateManager.saveState (s : Store) (now : Nat) (fs : SnapshotFS) : SnapshotFS :=
  let serialized := StateManager.serializeState s now
  let fs1 := { fs with temp := some serialized }
  let fs2 :=
    match fs1.canonical with
    | some current => { fs1 with backup := some current }
    | none => fs1
  { fs2 with canonical := fs2.temp, temp := none }

/-- A sequence of successful flushes: each flush serializes the in-memory
state as of its fire time. -/
def runFlushes (flushes : List (Store × Nat)) (fs : SnapshotFS) : SnapshotFS :=
  flushes.foldl (fun fs p => StateManager.saveState p.1 p.2 fs) fs

/-! ## Derived views and invariant predicates -/

/-- Whether an `Except` value is a success. -/
def exceptOk {ε α : Type} : Except ε α → Bool
  | .ok _ => true
  | .error _ => false

/-- The mission stored after an *accepted* submit (the counter increment
succeeded): the new attempt is appended, `currentAttempt` advances, and on
a passing validation the mission completes. Derived from the accepted path
of `SubmitAttemptTool.execute`. -/
def submitAcceptedMission (m : Mission) (input : SubmitInput) (now : Nat) : Mission :=
  let validationResult :=
    runValidator m.config.criteria input.output input.value now
  let storedOutput :=
    if input.output.length > 1024 * 1024 then
      (input.output.take (1024 * 1024)) ++ "\n... (truncated)"
    else input.output
  let attempt : Attempt :=
    { attemptNumber := m.currentAttempt + 1, timestamp := now,
      output := storedOutput, value := input.value,
      validationResult := validationResult }
  let m' := { m with attempts := m.attempts ++ [attempt],
                     currentAttempt := m.currentAttempt + 1, updatedAt := now }
  if validationResult.passed then
    { m' with state := .COMPLETED, completedAt := some now, success := some true }
  else m'

/-- The result returned by an accepted submit. -/
def submitAcceptedOutcome (m : Mission) (input : SubmitInput) (now : Nat) :
    SubmitOutcome :=
  let validationResult :=
    runValidator m.config.criteria input.output input.value now
  if validationResult.passed then
    .completedOk (m.currentAttempt + 1) validationResult
  else
    .failedRetry (m.config.maxAttempts.getD 10 - (m.currentAttempt + 1))
      validationResult

/-- The mission-level invariant of the claims: `currentAttempt` equals the
number of recorded attempts, and the recorded attempt numbers are exactly
the contiguous sequence `1..N` in order. -/
def missionWf (m : Mission) : Bool :=
  m.currentAttempt == m.attempts.length &&
    m.attempts.map (fun a => a.attemptNumber) == List.range' 1 m.attempts.length

/-- Every mission in the store satisfies `missionWf`. -/
def storeWf (s : Store) : Bool :=
  s.missions.all (fun p => missionWf p.2)

/-- The acceptance condition of the definition pipeline as stated by the
(amended) specification, written from its words for comparison against the
source functions: required-and-checked fields must be present with the
right runtime type, the Numeric operator must be truthy, a missing
ExitCode `expectedCode` defaults to `0`, and a missing Keyword
`mustContain` defaults to `true`. -/
def criteriaOk (strategy : String) (d : CriteriaData) : Bool :=
  if strategy = "NUMERIC" then
    d.threshold.isNum && d.operator.truthy
  else if strategy = "EXIT_CODE" then
    (d.expectedCode.coalesce (.num 0)).isNum
  else if strategy = "KEYWORD" then
    (d.keyword.isStr && !d.keyword.strEmpty) &&
      (d.mustContain.coalesce (.boolean true)).isBool
  else false

/-! ## Concrete fixtures used by witnesses and counterexamples -/

/-- A keyword mission allowing a single attempt, freshly activated. -/
def kwMission1 : Mission :=
  { config := { id := "m1", goal := "pass once",
                criteria := .keyword { keyword := "PASS", mustContain := true },
                maxAttempts := some 1 },
    state := .IN_PROGRESS, createdAt := 0, updatedAt := 0,
    attempts := [], currentAttempt := 0 }

/-- A store holding only `kwMission1`. -/
def store1 : Store := { missions := [("m1", kwMission1)] }

/-- A mission that was already aborted earlier. -/
def abortedMission : Mission :=
  { config := { id := "m6", goal := "g",
                criteria := .keyword { keyword := "OK", mustContain := true },
                maxAttempts := some 5 },
    state := .ABORTED, createdAt := 0, updatedAt := 5,
    attempts := [], currentAttempt := 0,
    completedAt := some 5, success := some false,
    errorMessage := some "Manually aborted" }

/-- A store holding only `abortedMission`. -/
def store6 : Store := { missions := [("m6", abortedMission)] }

/-- An in-progress mission whose attempts are exhausted
(`currentAttempt = maxAttempts`). -/
def exhaustedMission : Mission :=
  { config := { id := "m2", goal := "g",
                criteria := .exitCode { expectedCode := 0 },
                maxAttempts := some 2 },
    state := .IN_PROGRESS, createdAt := 0, updatedAt := 4,
    attempts :=
      [ { attemptNumber := 1, timestamp := 1, output := "1",
          validationResult :=
            { passed := false, message := "f", timestamp := 1 } },
        { attemptNumber := 2, timestamp := 2, output := "1",
          validationResult :=
            { passed := false, message := "f", timestamp := 2 } } ],
    currentAttempt := 2 }

/-- A store holding only `exhaustedMission`. -/
def store2 : Store := { missions := [("m2", exhaustedMission)] }

/-- A store with one completed mission carrying one attempt, used to
evaluate the serialization round trip on concrete data. -/
def roundTripStore : Store :=
  { missions :=
      [ ("m4",
         { config := { id := "m4", goal := "g4",
                       criteria := .numeric { operator := .gt, threshold := 100 },
                       maxAttempts := some 3 },
           state := .COMPLETED, createdAt := 10, updatedAt := 30,
           attempts :=
             [ { attemptNumber := 1, timestamp := 20, output := "150",
                 value := some (.num 150),
                 validationResult :=
                   { passed := true, actualValue := some (.num 150),
                     expectedValue := some (.num 100),
                     message := "ok", timestamp := 20 } } ],
           currentAttempt := 1, completedAt := some 30,
           success := some true } ) ] }

/-- Request data for a well-formed NUMERIC criteria record. -/
def numericData : CriteriaData :=
  { operator := .str ">", threshold := .num 100 }

/-! ## Map lemmas -/

theorem mapGet?_mapSet_self {α : Type} (l : List (String × α)) (k : String) (v : α) :
    mapGet? (mapSet l k v) k = some v := by
  induction l with
  | nil => simp [mapSet, mapGet?]
  | cons p rest ih =>
    by_cases h : p.1 = k
    · simp [mapSet, mapGet?, h]
    · simp [mapSet, mapGet?, h, ih]

theorem mapGet?_mem {α : Type} {l : List (String × α)} {k : String} {v : α}
    (h : mapGet? l k = some v) : (k, v) ∈ l := by
  induction l with
  | nil => simp [mapGet?] at h
  | cons p rest ih =>
    rw [mapGet?] at h
    split at h
    · rename_i heq
      cases p
      simp_all
    · simp [ih h]

theorem mem_mapSet {α : Type} {l : List (String × α)} {k : String} {v : α} {q : String × α}
    (h : q ∈ mapSet l k v) : q ∈ l ∨ q = (k, v) := by
  induction l with
  | nil => simp [mapSet] at h; simp [h]
  | cons p rest ih =>
    rw [mapSet] at h
    split at h
    · rcases List.mem_cons.mp h with h1 | h1
      · right; exact h1
      · left; exact List.mem_cons_of_mem _ h1
    · rcases List.mem_cons.mp h with h1 | h1
      · left; simp [h1]
      · rcases ih h1 with h2 | h2
        · left; exact List.mem_cons_of_mem _ h2
        · right; exact h2

theorem mapGet?_eq_none_iff {α : Type} {l : List (String × α)} {k : String} :
    mapGet? l k = none ↔ k ∉ l.map Prod.fst := by
  induction l with
  | nil => simp [mapGet?]
  | cons p rest ih =>
    rw [mapGet?]
    by_cases h : p.1 = k
    · subst h; simp
    · simp only [if_neg h, ih, List.map_cons, List.mem_cons]
      constructor
      · intro hn hk
        rcases hk with hk | hk
        · exact h hk.symm
        · exact hn hk
      · intro hn hk
        exact hn (Or.inr hk)

theorem mapSet_of_not_mem {α : Type} {l : List (String × α)} {k : String} (v : α)
    (h : mapGet? l k = none) : mapSet l k v = l ++ [(k, v)] := by
  induction l with
  | nil => simp [mapSet]
  | cons p rest ih =>
    rw [mapGet?] at h
    split at h
    · simp at h
    · rename_i hne
      rw [mapSet, if_neg hne, ih h]
      simp

/-! ## Counter computation lemmas -/

theorem fromCurrentAttempt_natCast (n maxA : Nat) (w : Option Nat) :
    AttemptCounter.fromCurrentAttempt (n : Int) { maxAttempts := maxA, warnThreshold := w } =
      (if n > maxA then .error (maxAttemptsExceededMessage maxA)
       else .ok (⟨n, maxA, w.getD 3⟩, [])) := by
  unfold AttemptCounter.fromCurrentAttempt
  rw [if_neg (by exact Int.not_lt.mpr (Int.natCast_nonneg n))]
  by_cases h : n > maxA
  · rw [if_pos h, if_pos (by exact_mod_cast h)]
  · rw [if_neg h, if_neg (by exact_mod_cast h)]
    simp

theorem increment_of_le (c : AttemptCounter) (h : c.currentAttempt + 1 ≤ c.maxAttempts) :
    AttemptCounter.increment c =
      ⟨⟨c.currentAttempt + 1, c.maxAttempts, c.warnThreshold⟩, .ok (c.currentAttempt + 1),
        if c.maxAttempts - (c.currentAttempt + 1) ≤ c.warnThreshold &&
            decide (c.maxAttempts - (c.currentAttempt + 1) > 0) then
          [s!"Approaching attempt limit: {c.maxAttempts - (c.currentAttempt + 1)} attempts remaining"]
        else []⟩ := by
  unfold AttemptCounter.increment
  rw [if_neg (by simpa using Nat.not_lt.mpr h)]
  rfl

theorem increment_of_exhausted (c : AttemptCounter) (h : c.maxAttempts ≤ c.currentAttempt) :
    AttemptCounter.increment c =
      ⟨⟨c.currentAttempt + 1, c.maxAttempts, c.warnThreshold⟩,
        .error (maxAttemptsExceededMessage c.maxAttempts), []⟩ := by
  unfold AttemptCounter.increment
  rw [if_pos (by simpa using Nat.lt_succ_of_le h)]

/-! ## Characterizations of the submit and abort paths -/

theorem updateMission_of_has (s : Store) (m : Mission) (now : Nat)
    (h : mapHas s.missions m.config.id = true) :
    StateManager.updateMission s m now =
      ({ s with
           missions := mapSet s.missions m.config.id ({ m with updatedAt := now }),
           dirty := true },
        .ok ()) := by
  unfold StateManager.updateMission
  rw [if_pos h]

theorem submit_not_found_eq (s : Store) (input : SubmitInput) (now : Nat)
    (hid : mapGet? s.missions input.missionId = none) :
    SubmitAttemptTool.execute s input now =
      (s, .error s!"Mission not found: {input.missionId}") := by
  unfold SubmitAttemptTool.execute
  rw [hid]

theorem submit_rejected_eq (s : Store) (input : SubmitInput) (m : Mission) (now : Nat)
    (hid : mapGet? s.missions input.missionId = some m)
    (hst : m.state ≠ .IN_PROGRESS) :
    SubmitAttemptTool.execute s input now = (s, .notInProgress m.state) := by
  unfold SubmitAttemptTool.execute
  rw [hid]
  simp [hst]

theorem submit_exhausted_eq (s : Store) (input : SubmitInput) (m : Mission) (now : Nat)
    (hid : mapGet? s.missions input.missionId = some m)
    (hkey : m.config.id = input.missionId)
    (hst : m.state = .IN_PROGRESS)
    (hcur : m.currentAttempt = m.config.maxAttempts.getD 10) :
    SubmitAttemptTool.execute s input now =
      ({ s with
           missions := mapSet s.missions input.missionId
             ({ m with
                  state := .FAILED,
                  completedAt := some now,
                  success := some false,
                  errorMessage := some "Maximum attempts exceeded",
                  updatedAt := now }),
           dirty := true },
        .maxExceeded m.currentAttempt m.config.maxAttempts) := by
  simp only [SubmitAttemptTool.execute, hid, hst, ne_eq, not_true_eq_false,
    Bool.false_eq_true, if_false, fromCurrentAttempt_natCast, hcur,
    gt_iff_lt, lt_self_iff_false, increment_of_exhausted, le_refl,
    StateManager.updateMission, mapHas, hkey, Option.isSome_some, if_true]

theorem submit_accepted_eq (s : Store) (input : SubmitInput) (m : Mission) (now : Nat)
    (hid : mapGet? s.missions input.missionId = some m)
    (hkey : m.config.id = input.missionId)
    (hst : m.state = .IN_PROGRESS)
    (hcur : m.currentAttempt < m.config.maxAttempts.getD 10) :
    SubmitAttemptTool.execute s input now =
      ({ s with
           missions := mapSet s.missions input.missionId
             (submitAcceptedMission m input now),
           dirty := true },
        submitAcceptedOutcome m input now) := by
  have hnot : ¬ m.currentAttempt > m.config.maxAttempts.getD 10 :=
    Nat.not_lt.mpr (Nat.le_of_lt hcur)
  by_cases hp : (runValidator m.config.criteria input.output input.value now).passed
  · simp only [SubmitAttemptTool.execute, hid, hst, ne_eq, not_true_eq_false,
      Bool.false_eq_true, if_false, fromCurrentAttempt_natCast, hnot,
      Option.getD_none, increment_of_le, Nat.add_one_le_iff, hcur,
      StateManager.updateMission, mapHas, hkey, Option.isSome_some, if_true,
      submitAcceptedMission, submitAcceptedOutcome, hp,
      AttemptCounter.getRemainingAttempts]
  · simp only [SubmitAttemptTool.execute, hid, hst, ne_eq, not_true_eq_false,
      Bool.false_eq_true, if_false, fromCurrentAttempt_natCast, hnot,
      Option.getD_none, increment_of_le, Nat.add_one_le_iff, hcur,
      StateManager.updateMission, mapHas, hkey, Option.isSome_some, if_true,
      submitAcceptedMission, submitAcceptedOutcome, hp,
      AttemptCounter.getRemainingAttempts]

theorem abort_eq (s : Store) (input : AbortInput) (m : Mission) (now : Nat)
    (hid : mapGet? s.missions input.missionId = some m)
    (hkey : m.config.id = input.missionId) :
    AbortMissionTool.execute s input now =
      (if m.state = .COMPLETED ∨ m.state = .FAILED then
        (s, .rejected m.state)
      else
        ({ s with
             missions := mapSet s.missions input.missionId
               ({ m with
                    state := .ABORTED,
                    completedAt := some now,
                    success := some false,
                    errorMessage := some (abortReason input.reason),
                    updatedAt := now }),
             dirty := true },
          .aborted m.currentAttempt (abortReason input.reason))) := by
  by_cases hterm : m.state = .COMPLETED ∨ m.state = .FAILED
  · simp only [AbortMissionTool.execute, hid, hterm, if_true]
  · simp only [AbortMissionTool.execute, hid, hterm, if_false,
      StateManager.updateMission, mapHas, hkey, Option.isSome_some, if_true]

/-! ## Projections of the accepted-submit view -/

theorem submitAcceptedMission_currentAttempt (m : Mission) (input : SubmitInput) (now : Nat) :
    (submitAcceptedMission m input now).currentAttempt = m.currentAttempt + 1 := by
  unfold submitAcceptedMission
  split <;> (dsimp only; split <;> rfl)

theorem submitAcceptedMission_config (m : Mission) (input : SubmitInput) (now : Nat) :
    (submitAcceptedMission m input now).config = m.config := by
  unfold submitAcceptedMission
  split <;> (dsimp only; split <;> rfl)

theorem submitAcceptedMission_attempts (m : Mission) (input : SubmitInput) (now : Nat) :
    ∃ a, (submitAcceptedMission m input now).attempts = m.attempts ++ [a]
      ∧ a.attemptNumber = m.currentAttempt + 1 := by
  unfold submitAcceptedMission
  split <;> (dsimp only; split <;> exact ⟨_, rfl, rfl⟩)

theorem submitAcceptedMission_state_passed (m : Mission) (input : SubmitInput) (now : Nat)
    (hp : (runValidator m.config.criteria input.output input.value now).passed = true) :
    (submitAcceptedMission m input now).state = .COMPLETED := by
  unfold submitAcceptedMission
  simp only [hp, if_true]

theorem submitAcceptedMission_state_failed (m : Mission) (input : SubmitInput) (now : Nat)
    (hp : (runValidator m.config.criteria input.output input.value now).passed = false) :
    (submitAcceptedMission m input now).state = m.state := by
  unfold submitAcceptedMission
  simp only [hp, Bool.false_eq_true, if_false]

/-! ## Claim theorems -/

/-- C2: for every mission in state IN_PROGRESS whose currentAttempt equals
its (effective) maxAttempts, the next SubmitAttempt performs the single
terminal transition — state FAILED, completedAt = now, success = false,
errorMessage = "Maximum attempts exceeded" — persists the mission (the
store is updated and marked dirty) and returns the terminal failure result
(`final = true`), not a validation result or a retryable error. -/
theorem submit_exhausted_terminal_transition (s : Store) (input : SubmitInput)
    (m : Mission) (now : Nat)
    (hid : mapGet? s.missions input.missionId = some m)
    (hkey : m.config.id = input.missionId)
    (hst : m.state = .IN_PROGRESS)
    (hcur : m.currentAttempt = m.config.maxAttempts.getD 10) :
    (SubmitAttemptTool.execute s input now).2 =
        .maxExceeded m.currentAttempt m.config.maxAttempts
    ∧ ((SubmitAttemptTool.execute s input now).2).finalField = some true
    ∧ ((SubmitAttemptTool.execute s input now).2).passedField = some false
    ∧ mapGet? (SubmitAttemptTool.execute s input now).1.missions input.missionId =
        some ({ m with
                  state := .FAILED,
                  completedAt := some now,
                  success := some false,
                  errorMessage := some "Maximum attempts exceeded",
                  updatedAt := now })
    ∧ (SubmitAttemptTool.execute s input now).1.dirty = true := by
  rw [submit_exhausted_eq s input m now hid hkey hst hcur]
  exact ⟨rfl, rfl, rfl, mapGet?_mapSet_self _ _ _, rfl⟩

/-- Witness for C2 at a concrete exhausted mission. -/
theorem submit_exhausted_terminal_transition_witness :
    (SubmitAttemptTool.execute store2 ⟨"m2", "1", none⟩ 9).2 =
      .maxExceeded exhaustedMission.currentAttempt exhaustedMission.config.maxAttempts :=
  (submit_exhausted_terminal_transition store2 ⟨"m2", "1", none⟩ exhaustedMission 9
    rfl rfl rfl rfl).1

/-- C10: when a SubmitAttempt is rejected because attempts are exhausted,
no attempt record is appended and `attempts`, `currentAttempt`, `config`
and `createdAt` are unchanged; the stored mission differs from the old one
exactly in `state`, `completedAt`, `success`, `errorMessage` and
`updatedAt`. -/
theorem submit_exhausted_frame (s : Store) (input : SubmitInput)
    (m : Mission) (now : Nat)
    (hid : mapGet? s.missions input.missionId = some m)
    (hkey : m.config.id = input.missionId)
    (hst : m.state = .IN_PROGRESS)
    (hcur : m.currentAttempt = m.config.maxAttempts.getD 10) :
    ∃ m', mapGet? (SubmitAttemptTool.execute s input now).1.missions input.missionId = some m'
      ∧ m'.attempts = m.attempts
      ∧ m'.currentAttempt = m.currentAttempt
      ∧ m'.config = m.config
      ∧ m'.createdAt = m.createdAt
      ∧ m' = { m with
                 state := .FAILED,
                 completedAt := some now,
                 success := some false,
                 errorMessage := some "Maximum attempts exceeded",
                 updatedAt := now } := by
  refine ⟨{ m with
              state := .FAILED,
              completedAt := some now,
              success := some false,
              errorMessage := some "Maximum attempts exceeded",
              updatedAt := now }, ?_, rfl, rfl, rfl, rfl, rfl⟩
  rw [submit_exhausted_eq s input m now hid hkey hst hcur]
  exact mapGet?_mapSet_self _ _ _

/-- Witness for C10 at a concrete exhausted mission. -/
theorem submit_exhausted_frame_witness :
    ∃ m', mapGet? (SubmitAttemptTool.execute store2 ⟨"m2", "0", none⟩ 11).1.missions "m2" = some m'
      ∧ m'.attempts = exhaustedMission.attempts
      ∧ m'.currentAttempt = exhaustedMission.currentAttempt
      ∧ m'.config = exhaustedMission.config
      ∧ m'.createdAt = exhaustedMission.createdAt
      ∧ m' = { exhaustedMission with
                 state := .FAILED,
                 completedAt := some 11,
                 success := some false,
                 errorMessage := some "Maximum attempts exceeded",
                 updatedAt := 11 } :=
  submit_exhausted_frame store2 ⟨"m2", "0", none⟩ exhaustedMission 11 rfl rfl rfl rfl

/-- C1 counterexample: with `maxAttempts = 1`, a first submit whose
validation fails leaves the mission IN_PROGRESS (not terminal) and returns
`final = false`, contradicting "the mission becomes terminal (COMPLETED or
FAILED) regardless of whether its validation passed or failed". -/
theorem maxAttempts_one_counterexample :
    (mapGet? (SubmitAttemptTool.execute store1 ⟨"m1", "no match", none⟩ 1).1.missions "m1").map
        Mission.state = some .IN_PROGRESS
    ∧ (SubmitAttemptTool.execute store1 ⟨"m1", "no match", none⟩ 1).2.finalField = some false := by
  exact ⟨rfl, rfl⟩

/-- C1 amended: with `maxAttempts = 1`, the first submit is accepted and
records attempt 1; the mission becomes terminal only when its validation
passes (COMPLETED); on a failing validation it remains IN_PROGRESS. A
second submit is rejected either way: after a pass with a "not in
progress" error, and after a fail by the terminal `MaxAttemptsExceeded`
transition to FAILED. -/
theorem maxAttempts_one_boundary (s : Store) (input input2 : SubmitInput)
    (m : Mission) (now now2 : Nat)
    (hid : mapGet? s.missions input.missionId = some m)
    (hkey : m.config.id = input.missionId)
    (hid2 : input2.missionId = input.missionId)
    (hst : m.state = .IN_PROGRESS)
    (hmax : m.config.maxAttempts.getD 10 = 1)
    (hcur : m.currentAttempt = 0) :
    (∃ m1, mapGet? (SubmitAttemptTool.execute s input now).1.missions input.missionId = some m1
       ∧ m1.currentAttempt = 1
       ∧ (∃ a, m1.attempts = m.attempts ++ [a] ∧ a.attemptNumber = 1))
    ∧ (SubmitAttemptTool.execute s input now).2 = submitAcceptedOutcome m input now
    ∧ ((runValidator m.config.criteria input.output input.value now).passed = true →
        (submitAcceptedMission m input now).state = .COMPLETED
        ∧ SubmitAttemptTool.execute (SubmitAttemptTool.execute s input now).1 input2 now2 =
            ((SubmitAttemptTool.execute s input now).1, .notInProgress .COMPLETED))
    ∧ ((runValidator m.config.criteria input.output input.value now).passed = false →
        (submitAcceptedMission m input now).state = .IN_PROGRESS
        ∧ (SubmitAttemptTool.execute (SubmitAttemptTool.execute s input now).1 input2 now2).2 =
            .maxExceeded 1 m.config.maxAttempts
        ∧ (mapGet? (SubmitAttemptTool.execute
              (SubmitAttemptTool.execute s input now).1 input2 now2).1.missions
              input.missionId).map Mission.state = some .FAILED) := by
  have hcur' : m.currentAttempt < m.config.maxAttempts.getD 10 := by
    rw [hcur, hmax]; exact Nat.one_pos
  have h1 := submit_accepted_eq s input m now hid hkey hst hcur'
  have hget : mapGet? (SubmitAttemptTool.execute s input now).1.missions input.missionId =
      some (submitAcceptedMission m input now) := by
    rw [h1]; exact mapGet?_mapSet_self _ _ _
  have hget2 : mapGet? (SubmitAttemptTool.execute s input now).1.missions input2.missionId =
      some (submitAcceptedMission m input now) := by rw [hid2]; exact hget
  have hkey2 : (submitAcceptedMission m input now).config.id = input2.missionId := by
    rw [submitAcceptedMission_config, hkey, hid2]
  refine ⟨⟨submitAcceptedMission m input now, hget, ?_, ?_⟩, by rw [h1], ?_, ?_⟩
  · rw [submitAcceptedMission_currentAttempt, hcur]
  · obtain ⟨a, ha, hn⟩ := submitAcceptedMission_attempts m input now
    exact ⟨a, ha, by rw [hn, hcur]⟩
  · intro hp
    have hcompleted := submitAcceptedMission_state_passed m input now hp
    refine ⟨hcompleted, ?_⟩
    have := submit_rejected_eq (SubmitAttemptTool.execute s input now).1 input2
      (submitAcceptedMission m input now) now2 hget2 (by rw [hcompleted]; intro hcon; cases hcon)
    rw [this, hcompleted]
  · intro hp
    have hmstate : (submitAcceptedMission m input now).state = .IN_PROGRESS := by
      rw [submitAcceptedMission_state_failed m input now hp, hst]
    have hmcur : (submitAcceptedMission m input now).currentAttempt =
        (submitAcceptedMission m input now).config.maxAttempts.getD 10 := by
      rw [submitAcceptedMission_currentAttempt, submitAcceptedMission_config, hcur, hmax]
    have h2 := submit_exhausted_eq (SubmitAttemptTool.execute s input now).1 input2
      (submitAcceptedMission m input now) now2 hget2 hkey2 hmstate hmcur
    refine ⟨hmstate, ?_, ?_⟩
    · rw [h2]
      simp only [submitAcceptedMission_currentAttempt, submitAcceptedMission_config, hcur]
    · rw [h2]
      simp only [← hid2]
      rw [mapGet?_mapSet_self]
      rfl

/-- Witness for the amended C1 at a concrete one-attempt mission. -/
theorem maxAttempts_one_boundary_witness :
    (SubmitAttemptTool.execute store1 ⟨"m1", "no match", none⟩ 1).2 =
      submitAcceptedOutcome kwMission1 ⟨"m1", "no match", none⟩ 1 :=
  (maxAttempts_one_boundary store1 ⟨"m1", "no match", none⟩ ⟨"m1", "x", none⟩ kwMission1 1 2
    rfl rfl rfl rfl rfl rfl).2.1

/-- C6 counterexample: an AbortMission call on a mission that is already
ABORTED (a terminal state) is not rejected — it succeeds, overwriting
`completedAt` and `errorMessage` — contradicting "an AbortMission call is
rejected and leaves the mission unchanged" for every terminal state. -/
theorem abort_aborted_counterexample :
    (AbortMissionTool.execute store6 ⟨"m6", some "second reason"⟩ 9).2 =
      .aborted 0 "second reason"
    ∧ (mapGet? (AbortMissionTool.execute store6 ⟨"m6", some "second reason"⟩ 9).1.missions
        "m6").map Mission.errorMessage = some (some "second reason")
    ∧ (mapGet? (AbortMissionTool.execute store6 ⟨"m6", some "second reason"⟩ 9).1.missions
        "m6").map Mission.completedAt = some (some 9) :=
  ⟨rfl, rfl, rfl⟩

/-- C6 amended: an AbortMission call is rejected — leaving the store
untouched — exactly when the mission is COMPLETED or FAILED; a PENDING,
IN_PROGRESS or already-ABORTED mission is (re)aborted, overwriting
`completedAt`, `success`, `errorMessage` and `updatedAt`. -/
theorem abort_terminal_rejection (s : Store) (input : AbortInput) (m : Mission) (now : Nat)
    (hid : mapGet? s.missions input.missionId = some m)
    (hkey : m.config.id = input.missionId) :
    ((m.state = .COMPLETED ∨ m.state = .FAILED) →
      AbortMissionTool.execute s input now = (s, .rejected m.state))
    ∧ ((m.state = .PENDING ∨ m.state = .IN_PROGRESS ∨ m.state = .ABORTED) →
      AbortMissionTool.execute s input now =
        ({ s with
             missions := mapSet s.missions input.missionId
               ({ m with
                    state := .ABORTED,
                    completedAt := some now,
                    success := some false,
                    errorMessage := some (abortReason input.reason),
                    updatedAt := now }),
             dirty := true },
          .aborted m.currentAttempt (abortReason input.reason))) := by
  have h := abort_eq s input m now hid hkey
  constructor
  · intro hterm
    rw [h, if_pos hterm]
  · intro hnt
    have hne : ¬(m.state = .COMPLETED ∨ m.state = .FAILED) := by
      rcases hnt with h1 | h1 | h1 <;> rw [h1] <;> rintro (hc | hc) <;> cases hc
    rw [h, if_neg hne]

/-- Witness for the amended C6: re-aborting an already aborted mission. -/
theorem abort_terminal_rejection_witness :
    AbortMissionTool.execute store6 ⟨"m6", some "r"⟩ 9 =
      ({ store6 with
           missions := mapSet store6.missions "m6"
             ({ abortedMission with
                  state := .ABORTED,
                  completedAt := some 9,
                  success := some false,
                  errorMessage := some (abortReason (some "r")),
                  updatedAt := 9 }),
           dirty := true },
        .aborted abortedMission.currentAttempt (abortReason (some "r"))) :=
  (abort_terminal_rejection store6 ⟨"m6", some "r"⟩ abortedMission 9 rfl rfl).2
    (Or.inr (Or.inr rfl))

/-- C9: `fromCurrentAttempt` succeeds exactly on `0 ≤ n ≤ maxAttempts`
(`n = maxAttempts` included), sets `currentAttempt` to `n` directly and
emits no warnings; restoring at 8 of 10 with `warnThreshold = 3` emits zero
warnings, and the single following increment returns 9 and emits exactly
one warning. -/
theorem restore_counter_spec (n : Int) (maxA wt : Nat)
    (h0 : 0 ≤ n) (h1 : n ≤ (maxA : Int)) :
    AttemptCounter.fromCurrentAttempt n ⟨maxA, some wt⟩ =
        .ok (⟨n.toNat, maxA, wt⟩, ([] : List String))
    ∧ (∀ bad : Int, (bad < 0 ∨ (maxA : Int) < bad) →
        ∀ r, AttemptCounter.fromCurrentAttempt bad ⟨maxA, some wt⟩ ≠ .ok r)
    ∧ AttemptCounter.fromCurrentAttempt 8 ⟨10, some 3⟩ = .ok (⟨8, 10, 3⟩, [])
    ∧ (AttemptCounter.increment ⟨8, 10, 3⟩).result = .ok 9
    ∧ (AttemptCounter.increment ⟨8, 10, 3⟩).warnings.length = 1 := by
  refine ⟨?_, ?_, rfl, rfl, rfl⟩
  · unfold AttemptCounter.fromCurrentAttempt
    rw [if_neg (Int.not_lt.mpr h0), if_neg (Int.not_lt.mpr h1)]
    rfl
  · intro bad hbad r
    unfold AttemptCounter.fromCurrentAttempt
    rcases hbad with hb | hb
    · rw [if_pos hb]
      intro hcon
      cases hcon
    · rw [if_neg (Int.not_lt.mpr (le_of_lt (lt_of_le_of_lt (Int.natCast_nonneg maxA) hb))),
        if_pos hb]
      intro hcon
      cases hcon

/-- Witness for C9 at the concrete restore point 8 of 10. -/
theorem restore_counter_spec_witness :
    AttemptCounter.fromCurrentAttempt 8 ⟨10, some 3⟩ = .ok (⟨8, 10, 3⟩, []) :=
  (restore_counter_spec 8 10 3 (by decide) (by decide)).2.2.1

/-- C8 counterexample: a supplied non-numeric `value` does NOT take
precedence — `NumericValidator` ignores the string `"50"` and passes by
parsing `150` from the output (50 would have failed the `> 100` check),
and `KeywordValidator` ignores its `value` argument entirely (it passes on
the output even though the supplied value lacks the keyword). -/
theorem explicit_value_ignored_counterexample :
    (NumericValidator.validate ⟨.gt, 100, none⟩ "150" (some (.str "50")) 0).passed = true
    ∧ (NumericValidator.validate ⟨.gt, 100, none⟩ "150" (some (.str "50")) 0).actualValue =
        some (.num 150)
    ∧ numCompare 50 .gt 100 = false
    ∧ (KeywordValidator.validate ⟨"PASS", true, none⟩ "PASS" (some (.str "FAIL")) 0).passed = true
    ∧ jsIncludes "FAIL" "PASS" = false := by
  refine ⟨by with_unfolding_all rfl, by with_unfolding_all rfl, by with_unfolding_all rfl,
    by decide, by decide⟩

/-- C8 amended: a supplied *numeric* value takes precedence for the
Numeric and ExitCode validators (it determines both the pass/fail result
and the reported actualValue); a supplied *string* value is ignored by
those two (they fall back to parsing the output); the Keyword validator
ignores the `value` argument entirely. -/
theorem explicit_value_precedence :
    (∀ (c : NumericCriteria) (output : String) (q : Rat) (now : Nat),
        (NumericValidator.validate c output (some (.num q)) now).actualValue = some (.num q)
      ∧ (NumericValidator.validate c output (some (.num q)) now).passed =
          numCompare q c.operator c.threshold)
    ∧ (∀ (c : ExitCodeCriteria) (output : String) (q : Rat) (now : Nat),
        (ExitCodeValidator.validate c output (some (.num q)) now).actualValue = some (.num q)
      ∧ (ExitCodeValidator.validate c output (some (.num q)) now).passed =
          (q == c.expectedCode))
    ∧ (∀ (c : NumericCriteria) (output v : String) (now : Nat),
        NumericValidator.validate c output (some (.str v)) now =
          NumericValidator.validate c output none now)
    ∧ (∀ (c : ExitCodeCriteria) (output v : String) (now : Nat),
        ExitCodeValidator.validate c output (some (.str v)) now =
          ExitCodeValidator.validate c output none now)
    ∧ (∀ (c : KeywordCriteria) (output : String) (v : Option NumOrStr) (now : Nat),
        KeywordValidator.validate c output v now =
          KeywordValidator.validate c output none now) :=
  ⟨fun _ _ _ _ => ⟨rfl, rfl⟩, fun _ _ _ _ => ⟨rfl, rfl⟩,
    fun _ _ _ _ => rfl, fun _ _ _ _ => rfl, fun _ _ _ _ => rfl⟩

/-- The parse-then-validate pipeline succeeds exactly on `criteriaOk`. -/
theorem validate_parse_eq_criteriaOk (strategy : String) (d : CriteriaData) :
    (match parseCriteria strategy d with
     | .ok c => exceptOk (validateCriteria c)
     | .error _ => false) = criteriaOk strategy d := by
  unfold parseCriteria criteriaOk
  by_cases h1 : strategy = "NUMERIC"
  · rw [if_pos h1, if_pos h1]
    show exceptOk (validateCriteria _) = _
    unfold validateCriteria
    cases hth : d.threshold.isNum
    · simp [exceptOk, hth]
    · cases hop : d.operator.truthy <;> simp [exceptOk, hth, hop]
  · rw [if_neg h1, if_neg h1]
    by_cases h2 : strategy = "EXIT_CODE"
    · rw [if_pos h2, if_pos h2]
      show exceptOk (validateCriteria _) = _
      unfold validateCriteria
      cases hec : (d.expectedCode.coalesce (.num 0)).isNum <;> simp [exceptOk, hec]
    · rw [if_neg h2, if_neg h2]
      by_cases h3 : strategy = "KEYWORD"
      · rw [if_pos h3, if_pos h3]
        show exceptOk (validateCriteria _) = _
        unfold validateCriteria
        cases hk : d.keyword.isStr
        · simp [exceptOk, hk]
        · cases hk2 : d.keyword.strEmpty
          · cases hmc : (d.mustContain.coalesce (.boolean true)).isBool <;>
              simp [exceptOk, hk, hk2, hmc]
          · simp [exceptOk, hk, hk2]
      · rw [if_neg h3, if_neg h3]

/-- C7 counterexample: an EXIT_CODE definition request with `expectedCode`
absent is NOT rejected with InvalidCriteria — the field is defaulted to `0`
and the mission is created and stored — contradicting "missing ...
expectedCode ... fails synchronously with an InvalidCriteria error and no
mission is created". -/
theorem missing_expectedCode_counterexample :
    (DefineMissionTool.execute [] "id1" "g" "EXIT_CODE" {} none 0).2 = .ok "id1"
    ∧ mapGet? (DefineMissionTool.execute [] "id1" "g" "EXIT_CODE" {} none 0).1 "id1" =
        some { id := "id1", goal := "g", criteria := .exitCode (.num 0) .undef,
               maxAttempts := 10, state := .IN_PROGRESS, createdAt := 0, updatedAt := 0,
               attempts := [], currentAttempt := 0 } :=
  ⟨rfl, rfl⟩

/-- C7 amended: a DefineMission request is rejected synchronously with
InvalidCriteria — and no mission is created — exactly when `criteriaOk`
fails: a missing or non-number Numeric threshold, a missing (or otherwise
falsy) Numeric operator, a missing, non-string or empty Keyword keyword, a
present but non-boolean mustContain, or a present but non-number
expectedCode. A missing expectedCode defaults to `0` and a missing
mustContain defaults to `true`, and the mission is created. -/
theorem define_mission_criteria_validation (store : List (String × RawMission))
    (id goal strategy : String) (d : CriteriaData) (maxA : Option Nat) (now : Nat)
    (hfresh : mapGet? store id = none) :
    (exceptOk (DefineMissionTool.execute store id goal strategy d maxA now).2 =
        criteriaOk strategy d)
    ∧ (criteriaOk strategy d = false →
        (DefineMissionTool.execute store id goal strategy d maxA now).1 = store)
    ∧ (criteriaOk strategy d = true →
        ∃ mission, mapGet? (DefineMissionTool.execute store id goal strategy d maxA now).1 id =
            some mission
          ∧ parseCriteria strategy d = .ok mission.criteria
          ∧ mission.state = .IN_PROGRESS
          ∧ mission.currentAttempt = 0
          ∧ mission.attempts = []) := by
  have hval := validate_parse_eq_criteriaOk strategy d
  have hhas : mapHas store id = false := by simp [mapHas, hfresh]
  unfold DefineMissionTool.execute
  cases hp : parseCriteria strategy d with
  | error e =>
    rw [hp] at hval
    dsimp only at hval ⊢
    refine ⟨hval, fun _ => rfl, fun hok => ?_⟩
    rw [← hval] at hok
    cases hok
  | ok c =>
    rw [hp] at hval
    dsimp only at hval ⊢
    cases hv : validateCriteria c with
    | error e2 =>
      rw [hv] at hval
      dsimp only [exceptOk] at hval ⊢
      refine ⟨hval, fun _ => rfl, fun hok => ?_⟩
      rw [← hval] at hok
      cases hok
    | ok u =>
      rw [hv] at hval
      dsimp only [exceptOk] at hval ⊢
      refine ⟨?_, fun hcon => ?_, fun _ => ?_⟩
      · rw [← hval]
        simp [hhas, exceptOk]
      · rw [← hval] at hcon
        cases hcon
      · refine ⟨{ id := id, goal := goal, criteria := c, maxAttempts := maxA.getD 10,
                  state := .IN_PROGRESS, createdAt := now, updatedAt := now,
                  attempts := [], currentAttempt := 0 }, ?_, ?_, rfl, rfl, rfl⟩
        · simp only [hhas, Bool.false_eq_true, if_false]
          exact mapGet?_mapSet_self _ _ _
        · rfl

/-- Witness for the amended C7 at a well-formed NUMERIC request. -/
theorem define_mission_criteria_validation_witness :
    exceptOk (DefineMissionTool.execute [] "idW" "g" "NUMERIC" numericData none 3).2 =
      criteriaOk "NUMERIC" numericData :=
  (define_mission_criteria_validation [] "idW" "g" "NUMERIC" numericData none 3 rfl).1

/-! ## Round-trip lemmas (serialization) -/

theorem dateOf_toISOString (t : Nat) : dateOf (toISOString t) = t := rfl

theorem deserialize_serialize_attempt (a : Attempt) :
    deserializeAttempt (serializeAttempt a) = a := rfl

theorem deserialize_serialize_mission (m : Mission) :
    deserializeMission (serializeMission m) = m := by
  have h1 : deserializeAttempt ∘ serializeAttempt = id := funext deserialize_serialize_attempt
  have h2 : dateOf ∘ toISOString = id := funext dateOf_toISOString
  cases m with
  | mk config state createdAt updatedAt attempts currentAttempt completedAt success errorMessage =>
    simp [deserializeMission, serializeMission, List.map_map, Option.map_map, h1, h2,
      dateOf_toISOString]

theorem mapGet?_append_none {α : Type} {l : List (String × α)} {k k' : String} {v : α}
    (h : mapGet? l k' = none) (hne : k ≠ k') :
    mapGet? (l ++ [(k, v)]) k' = none := by
  induction l with
  | nil =>
    rw [List.nil_append, mapGet?, if_neg hne]
    rfl
  | cons p rest ih =>
    by_cases hpk : p.1 = k'
    · rw [mapGet?, if_pos hpk] at h
      cases h
    · rw [List.cons_append, mapGet?, if_neg hpk]
      rw [mapGet?, if_neg hpk] at h
      exact ih h

theorem foldl_mapSet_restore {α : Type} :
    ∀ (l acc : List (String × α)),
      (l.map Prod.fst).Nodup →
      (∀ k, k ∈ l.map Prod.fst → mapGet? acc k = none) →
      l.foldl (fun acc p => mapSet acc p.1 p.2) acc = acc ++ l := by
  intro l
  induction l with
  | nil =>
    intro acc _ _
    simp
  | cons p rest ih =>
    intro acc hnd hdis
    rw [List.map_cons] at hnd
    have hcons := List.nodup_cons.mp hnd
    rw [List.foldl_cons]
    have hacc : mapGet? acc p.1 = none := hdis p.1 (by simp)
    rw [mapSet_of_not_mem p.2 hacc]
    rw [ih (acc ++ [(p.1, p.2)]) hcons.2 ?_]
    · simp
    · intro k hk
      have hk1 : mapGet? acc k = none := hdis k (by simp [hk])
      have hk2 : p.1 ≠ k := fun hcon => hcons.1 (hcon ▸ hk)
      exact mapGet?_append_none hk1 hk2

/-- C4: serializing the store to the versioned Snapshot form and
deserializing it into a fresh state reproduces the identical mission map —
same ids mapping to missions with equal fields, timestamps reconstructed to
equal values, attempt order preserved (the lists are equal as ordered
lists). -/
theorem snapshot_roundtrip (s : Store) (now : Nat)
    (hnodup : (s.missions.map Prod.fst).Nodup) :
    (StateManager.deserializeState (StateManager.serializeState s now)).missions =
      s.missions := by
  unfold StateManager.deserializeState StateManager.serializeState
  dsimp only
  rw [List.foldl_map]
  have hfun : (fun acc (p : String × Mission) =>
      mapSet acc p.1 (deserializeMission (serializeMission p.2))) =
      (fun acc p => mapSet acc p.1 p.2) := by
    funext acc p
    rw [deserialize_serialize_mission]
  rw [hfun]
  rw [foldl_mapSet_restore s.missions [] hnodup (fun k _ => rfl)]
  rfl

/-- Witness for C4 on a concrete store with one attempt-carrying mission. -/
theorem snapshot_roundtrip_witness :
    (StateManager.deserializeState (StateManager.serializeState roundTripStore 99)).missions =
      roundTripStore.missions :=
  snapshot_roundtrip roundTripStore 99 (by decide)

/-! ## Backup freshness (C5) -/

theorem saveState_canonical (st : Store) (now : Nat) (fs : SnapshotFS) :
    (StateManager.saveState st now fs).canonical =
      some (StateManager.serializeState st now) := by
  unfold StateManager.saveState
  cases h : fs.canonical <;> simp [h]

theorem saveState_backup (st : Store) (now : Nat) (fs : SnapshotFS) (c : SerializedState)
    (h : fs.canonical = some c) :
    (StateManager.saveState st now fs).backup = some c := by
  unfold StateManager.saveState
  simp [h]

/-- C5: after any sequence of successful flushes ending in flushes N−1 and
N, the backup file holds exactly the snapshot serialized by flush N−1 (the
canonical file is copied to the backup path before the rename), and — when
the two snapshots differ — never the snapshot of flush N, which is what
the canonical file holds. -/
theorem backup_holds_previous_flush (earlier : List (Store × Nat)) (a b : Store × Nat)
    (fs0 : SnapshotFS)
    (hne : StateManager.serializeState a.1 a.2 ≠ StateManager.serializeState b.1 b.2) :
    (runFlushes (earlier ++ [a, b]) fs0).backup =
        some (StateManager.serializeState a.1 a.2)
    ∧ (runFlushes (earlier ++ [a, b]) fs0).backup ≠
        some (StateManager.serializeState b.1 b.2)
    ∧ (runFlushes (earlier ++ [a, b]) fs0).canonical =
        some (StateManager.serializeState b.1 b.2) := by
  have hsplit : runFlushes (earlier ++ [a, b]) fs0 =
      StateManager.saveState b.1 b.2
        (StateManager.saveState a.1 a.2 (runFlushes earlier fs0)) := by
    unfold runFlushes
    rw [List.foldl_append]
    rfl
  rw [hsplit]
  have hca := saveState_canonical a.1 a.2 (runFlushes earlier fs0)
  refine ⟨saveState_backup _ _ _ _ hca, ?_, saveState_canonical _ _ _⟩
  rw [saveState_backup _ _ _ _ hca]
  intro hcon
  exact hne (Option.some.inj hcon)

/-- Witness for C5: two flushes of the empty store at different instants. -/
theorem backup_holds_previous_flush_witness :
    (runFlushes ([] ++ [(emptyStore, 1), (emptyStore, 2)]) {}).backup =
      some (StateManager.serializeState emptyStore 1) :=
  (backup_holds_previous_flush [] (emptyStore, 1) (emptyStore, 2) {} (by decide)).1

/-! ## Attempt-numbering invariant (C3) -/

theorem missionWf_of_mapGet? (s : Store) (k : String) (m : Mission)
    (h : storeWf s = true) (hm : mapGet? s.missions k = some m) :
    missionWf m = true := by
  unfold storeWf at h
  rw [List.all_eq_true] at h
  exact h (k, m) (mapGet?_mem hm)

theorem all_missionWf_mapSet (l : List (String × Mission)) (k : String) (v : Mission)
    (h : l.all (fun p => missionWf p.2) = true) (hv : missionWf v = true) :
    (mapSet l k v).all (fun p => missionWf p.2) = true := by
  rw [List.all_eq_true] at h ⊢
  intro q hq
  rcases mem_mapSet hq with hmem | heq
  · exact h q hmem
  · rw [heq]
    exact hv

theorem storeWf_updateMission (s : Store) (m : Mission) (now : Nat)
    (h : storeWf s = true) (hm : missionWf m = true) :
    storeWf (StateManager.updateMission s m now).1 = true := by
  unfold StateManager.updateMission
  by_cases hh : mapHas s.missions m.config.id
  · rw [if_pos hh]
    exact all_missionWf_mapSet _ _ _ h hm
  · rw [if_neg hh]
    exact h

theorem missionWf_append (m m' : Mission) (att : Attempt)
    (h : missionWf m = true)
    (hatt : m'.attempts = m.attempts ++ [att])
    (hcur : m'.currentAttempt = m.currentAttempt + 1)
    (hn : att.attemptNumber = m.currentAttempt + 1) :
    missionWf m' = true := by
  unfold missionWf at h ⊢
  rw [Bool.and_eq_true, beq_iff_eq, beq_iff_eq] at h ⊢
  obtain ⟨h1, h2⟩ := h
  rw [hatt, hcur]
  constructor
  · simp [h1]
  · simp only [List.map_append, List.map_cons, List.map_nil, List.length_append,
      List.length_cons, List.length_nil]
    rw [h2, hn, h1, List.range'_1_concat]
    simp [Nat.add_comm]

theorem storeWf_submit (s : Store) (input : SubmitInput) (now : Nat)
    (h : storeWf s = true) :
    storeWf (SubmitAttemptTool.execute s input now).1 = true := by
  unfold SubmitAttemptTool.execute
  cases hid : mapGet? s.missions input.missionId with
  | none => exact h
  | some m =>
    dsimp only
    by_cases hst : m.state ≠ .IN_PROGRESS
    · rw [if_pos hst]
      exact h
    · rw [if_neg hst]
      rw [fromCurrentAttempt_natCast]
      by_cases hover : m.currentAttempt > m.config.maxAttempts.getD 10
      · rw [if_pos hover]
        exact h
      · rw [if_neg hover]
        dsimp only
        have hmwf := missionWf_of_mapGet? s input.missionId m h hid
        by_cases hex : m.currentAttempt + 1 > m.config.maxAttempts.getD 10
        · rw [increment_of_exhausted _ (Nat.lt_succ_iff.mp hex)]
          exact storeWf_updateMission s _ now h hmwf
        · rw [increment_of_le _ (Nat.not_lt.mp hex)]
          dsimp only
          split
          · exact storeWf_updateMission s _ now h
              (missionWf_append m _ _ hmwf rfl rfl rfl)
          · exact storeWf_updateMission s _ now h
              (missionWf_append m _ _ hmwf rfl rfl rfl)

theorem storeWf_abort (s : Store) (input : AbortInput) (now : Nat)
    (h : storeWf s = true) :
    storeWf (AbortMissionTool.execute s input now).1 = true := by
  unfold AbortMissionTool.execute
  cases hid : mapGet? s.missions input.missionId with
  | none => exact h
  | some m =>
    dsimp only
    by_cases hterm : m.state = .COMPLETED ∨ m.state = .FAILED
    · rw [if_pos hterm]
      exact h
    · rw [if_neg hterm]
      exact storeWf_updateMission s _ now h (missionWf_of_mapGet? s input.missionId m h hid)

theorem storeWf_define (s : Store) (id : String) (params : DefineMissionParams) (now : Nat)
    (h : storeWf s = true) :
    storeWf (DefineMissionTool.executeTyped s id params now).1 = true := by
  unfold DefineMissionTool.executeTyped MissionDefiner.defineMission
  cases hv : validateCriteriaTyped params.criteria with
  | error e => exact h
  | ok u =>
    dsimp only [Except.map]
    unfold StateManager.addMission
    by_cases hd : mapHas s.missions id
    · rw [if_pos (by exact hd)]
      exact h
    · rw [if_neg (by exact hd)]
      exact all_missionWf_mapSet _ _ _ h rfl

theorem storeWf_applyOp (s : Store) (op : Op) (h : storeWf s = true) :
    storeWf (applyOp s op) = true := by
  cases op with
  | defineOp id params now => exact storeWf_define s id params now h
  | submitOp input now => exact storeWf_submit s input now h
  | abortOp input now => exact storeWf_abort s input now h

/-- C3: after every sequence of DefineMission / SubmitAttempt /
AbortMission operations starting from the empty store, every stored
mission satisfies `missionWf`: `currentAttempt` equals `attempts.length`
and the recorded `attemptNumber`s are exactly the contiguous sequence
`1..N` in order — in particular, k sequential accepted submits on one
mission yield attempt numbers exactly `1..k` with no gaps or repeats. -/
theorem attempt_numbering_invariant (ops : List Op) :
    storeWf (runOps ops emptyStore) = true := by
  suffices hgen : ∀ s, storeWf s = true → storeWf (runOps ops s) = true from
    hgen emptyStore rfl
  unfold runOps
  induction ops with
  | nil =>
    intro s hs
    exact hs
  | cons op rest ih =>
    intro s hs
    rw [List.foldl_cons]
    exact ih _ (storeWf_applyOp s op hs)

end MissionControl
